import Mathlib

/-!
# Verification of the djvidscraper Feed Import Engine

Shallow embedding of `djvidscraper/models.py` (the Feed Import Engine:
identifier deduplication, per-item import loop, step/counter accounting,
and the finalize/publication phase), together with proofs of the spec's
claims about it.

Modelling conventions:
* Python strings that may be `None` or `''` are modelled as `String`,
  with `""` playing the falsy role (the source only ever tests these
  fields for truthiness, e.g. `if i`, `video.link or ''`).
* `sha1(i).hexdigest()` is a fixed deterministic digest; the embedding
  is parameterised over an arbitrary digest `hashf : String → String`
  (every claim holds for an arbitrary function, i.e. uses only
  determinism of the digest, never any property of SHA-1 itself).
* Database tables are association lists; `now()` is an explicit `t : Nat`.
* Exceptions raised by external collaborators (network load, DB save,
  `save_m2m`) are modelled as explicit failure flags on each item, since
  the source only ever branches on "did this raise or not".
-/

/-- One file variant offered by a remote vidscraper video
(`vidscraper` file object: `url`, `length`, `mime_type`, `expires`).
`expires = true` models a truthy `expires` attribute. -/
structure VidFile where
  url : String
  expires : Bool
  deriving DecidableEq

/-- A remote video record yielded by the vidscraper feed iterator
(the fields of `vidscraper.videos.Video` that `models.py` reads).
`files = none` models `video.files is None`. -/
structure VidscraperVideo where
  url : String
  guid : String
  link : String
  flash_enclosure_url : String
  embed_code : String
  title : String
  description : String
  files : Option (List VidFile)
  deriving DecidableEq

/-- The non-expiring file variants of a record: in
`FeedImport._get_identifier_hashes`, `if vidscraper_video.files is not
None: identifiers += tuple(f.url for f in vidscraper_video.files if not
f.expires)`. -/
def nonExpiringFiles (v : VidscraperVideo) : List VidFile :=
  match v.files with
  | none => []
  | some fs => fs.filter (fun f => !f.expires)

/-- The raw identifier tuple of `FeedImport._get_identifier_hashes`
before the truthiness filter: `(guid, link, flash_enclosure_url,
embed_code)` extended with the non-expiring file URLs. -/
def rawIdentifiers (v : VidscraperVideo) : List String :=
  [v.guid, v.link, v.flash_enclosure_url, v.embed_code] ++
    (nonExpiringFiles v).map (fun f => f.url)

/-- `FeedImport._get_identifier_hashes`:
`[sha1(i).hexdigest() for i in identifiers if i]` — hash every truthy
(non-empty) identifier with the digest `hashf`. -/
def get_identifier_hashes (hashf : String → String) (v : VidscraperVideo) :
    List String :=
  ((rawIdentifiers v).filter (fun i => i ≠ "")).map hashf

/-- `FeedImport.is_seen`: the `FeedImportIdentifier` rows of one feed are
modelled as the list `seen` of stored identifier hashes.  If the record
yields no hashes the method returns `False`; otherwise it asks whether
any hash is already stored (`identifier_hash__in=hashes ... .exists()`). -/
def is_seen (hashf : String → String) (seen : List String)
    (v : VidscraperVideo) : Bool :=
  let hashes := get_identifier_hashes hashf v
  if hashes.isEmpty then false
  else hashes.any (fun h => seen.contains h)

/-- `FeedImport.mark_seen`: create one `FeedImportIdentifier` row per
hash of the record (for this feed). -/
def mark_seen (hashf : String → String) (seen : List String)
    (v : VidscraperVideo) : List String :=
  seen ++ get_identifier_hashes hashf v

example :
    get_identifier_hashes id
      { url := "u", guid := "g", link := "", flash_enclosure_url := "",
        embed_code := "e", title := "", description := "",
        files := some [⟨"f1", false⟩, ⟨"f2", true⟩] } = ["g", "e", "f1"] := by
  decide

/-- `Video.STATUS_CHOICES`: the status state of a `Video` row. -/
inductive VStatus where
  | unpublished
  | needsModeration
  | published
  | hidden
  deriving DecidableEq

/-- `FeedImportStep.STEP_TYPE_CHOICES`: the kind of one recorded step. -/
inductive StepType where
  | importErrored
  | videoSeen
  | videoInvalid
  | videoErrored
  | videoImported
  deriving DecidableEq

/-- One `FeedImportStep` row of the current run.  `video` is the
optional reference to the created `Video` row (by id); `traceback`
records whether a failure trace was captured (`traceback.format_exc()`
vs `''`). -/
structure Step where
  step_type : StepType
  video : Option Nat
  traceback : Bool
  deriving DecidableEq

/-- The persisted fields of a `Video` row written by
`Video.from_vidscraper_video` that the import engine later reads or
mutates.  Ownership, site and cached external-source fields are not
modelled: no claim mentions them and the engine never branches on them. -/
structure VideoRec where
  original_url : String
  web_url : String
  embed_code : String
  flash_enclosure_url : String
  name : String
  description : String
  guid : String
  status : VStatus
  published_datetime : Option Nat
  deriving DecidableEq

/-- `Video.from_vidscraper_video` (field mapping only; the
`pre_video_import` signal is sent with `send_robust`, so it cannot raise,
and with `commit=False` nothing is saved here).  `t` is `now()`:
`published_datetime=now() if status == cls.PUBLISHED else None`. -/
def from_vidscraper_video (video : VidscraperVideo) (status : VStatus)
    (t : Nat) : VideoRec :=
  { original_url := video.url
    web_url := video.link
    embed_code := video.embed_code
    flash_enclosure_url := video.flash_enclosure_url
    name := video.title
    description := video.description
    guid := video.guid
    status := status
    published_datetime := if status = VStatus.published then some t else none }

/-- The import-relevant persisted fields of a `Feed` row.  `thumbnail`,
`enable_automatic_imports` and the ownership fields are not read by
the import engine and are not modelled. -/
structure Feed where
  moderate_imported_videos : Bool
  stop_if_seen : Bool
  should_update_metadata : Bool
  original_url : String
  name : String
  description : String
  web_url : String
  external_etag : String
  external_last_modified : Option Nat
  deriving DecidableEq

/-- The post-`load()` attributes of the vidscraper feed iterator that
`Feed.update_metadata` reads.  `etag = ""` models a falsy
`getattr(iterator, 'etag', None)`; similarly for `title`, `webpage`,
`description`. -/
structure FeedIterator where
  etag : String
  last_modified : Option Nat
  title : String
  webpage : String
  description : String
  deriving DecidableEq

/-- `Feed.update_metadata`.  The returned `Feed` is the persisted row
after the method (when no branch fires, `save` stays `False` and the row
is untouched — which coincides with returning the unchanged value).

Note the line `self.external_url = iterator.webpage or ''`: `Feed`
defines no field named `external_url` (its browsable-page field is
`web_url`), so this assignment creates a plain instance attribute that
`save()` never persists; the embedding of the persisted row therefore
has no corresponding update. -/
def update_metadata (feed : Feed) (it : FeedIterator) : Feed :=
  let feed :=
    if it.etag ≠ "" ∧ it.etag ≠ feed.external_etag then
      { feed with external_etag := it.etag }
    else feed
  let feed :=
    match it.last_modified with
    | some lm => { feed with external_last_modified := some lm }
    | none => feed
  if feed.should_update_metadata then
    { feed with
        name := if it.title ≠ "" then it.title else feed.original_url
        description := it.description
        should_update_metadata := false }
  else feed

/-- The mutable state touched by `FeedImport.run`: the `FeedImport`
row's own fields (`error_count`, `import_count`, `is_complete`), its
`steps` (the `FeedImportStep` rows of this run, in creation order), the
feed's `FeedImportIdentifier` rows (`seen`), and the `Video` table
(`videos`, id-keyed; `next_id` is the next primary key). -/
structure RunState where
  error_count : Nat
  import_count : Nat
  steps : List Step
  seen : List String
  videos : List (Nat × VideoRec)
  next_id : Nat
  is_complete : Bool
  deriving DecidableEq

/-- The state of a freshly created `FeedImport` (all model defaults:
counters `0`, `is_complete=False`) over a feed whose identifier history
is `seen` and an empty `Video` table. -/
def mkInit (seen : List String) : RunState :=
  { error_count := 0, import_count := 0, steps := [], seen := seen,
    videos := [], next_id := 0, is_complete := false }

/-- `FeedImport.record_step`: bump `error_count` on `VIDEO_ERRORED` /
`IMPORT_ERRORED`, bump `import_count` on `VIDEO_IMPORTED`, then create
the step row (`tb = traceback.format_exc() if with_traceback else ''`). -/
def record_step (st : RunState) (step_type : StepType)
    (video : Option Nat) (with_traceback : Bool) : RunState :=
  let st :=
    if step_type = StepType.videoErrored ∨ step_type = StepType.importErrored
    then { st with error_count := st.error_count + 1 }
    else st
  let st :=
    if step_type = StepType.videoImported
    then { st with import_count := st.import_count + 1 }
    else st
  { st with steps := st.steps ++ [⟨step_type, video, with_traceback⟩] }

/-- One item yielded by the feed iterator, together with the outcome of
each external call the per-item body makes on it: whether
`vidscraper_video.load()` raises, whether `clean_fields()` /
`validate_unique()` raise `ValidationError`, whether `video.save()`
raises, and whether `video.save_m2m()` raises.  (The source only ever
branches on raised-or-not, so these flags are the faithful residue of
the exception behaviour.) -/
structure FeedItem where
  video : VidscraperVideo
  load_fails : Bool
  valid_fails : Bool
  save_fails : Bool
  attach_fails : Bool
  deriving DecidableEq

/-- The body of the per-item loop of `FeedImport.run` (lines inside the
inner `try`, together with its `except Exception` guard that records a
`VIDEO_ERRORED` step).  Returns the new state and whether the loop
breaks (`feed.stop_if_seen` after a seen item).

Order of operations matches the source exactly: load; seen-check (break
or continue); build via `from_vidscraper_video(status=UNPUBLISHED,
commit=False)`; validation (a `ValidationError` records a
`VIDEO_INVALID` step but does not stop the item); `video.save()`;
`video.save_m2m()` (on failure the just-saved row is deleted and the
exception re-raised into the guard); `mark_seen`; `VIDEO_IMPORTED` step
referencing the row.  `save_m2m` itself (site attachment, `VideoFile`
creation, thumbnail download, `post_video_import.send_robust`) is
summarised by its raised-or-not flag: no claim inspects the attached
rows, only whether the `Video` row survives. -/
def processItem (feed : Feed) (hashf : String → String) (t : Nat)
    (st : RunState) (item : FeedItem) : RunState × Bool :=
  if item.load_fails then
    (record_step st StepType.videoErrored none true, false)
  else if is_seen hashf st.seen item.video then
    (record_step st StepType.videoSeen none false, feed.stop_if_seen)
  else
    let video := from_vidscraper_video item.video VStatus.unpublished t
    let st :=
      if item.valid_fails then record_step st StepType.videoInvalid none true
      else st
    if item.save_fails then
      (record_step st StepType.videoErrored none true, false)
    else
      let vid := st.next_id
      let st := { st with videos := st.videos ++ [(vid, video)],
                          next_id := vid + 1 }
      if item.attach_fails then
        let st := { st with videos := st.videos.filter (fun p => p.1 ≠ vid) }
        (record_step st StepType.videoErrored none true, false)
      else
        let st := { st with seen := mark_seen hashf st.seen item.video }
        (record_step st StepType.videoImported (some vid) false, false)

/-- The `for vidscraper_video in iterator` loop of `FeedImport.run`.
Returns the final state together with the items the iterator was never
asked for (a `break` leaves the forward-only cursor unconsumed).  The
`self.save()` after each item persists the already-updated counters and
timestamp and changes no modelled value. -/
def processItems (feed : Feed) (hashf : String → String) (t : Nat) :
    RunState → List FeedItem → RunState × List FeedItem
  | st, [] => (st, [])
  | st, item :: rest =>
    let r := processItem feed hashf t st item
    if r.2 then (r.1, rest)
    else processItems feed hashf t r.1 rest

/-- The `Video` ids attached to this run's steps — the join
`Video.objects.filter(feedimportstep__feed_import=self, ...)` used by
the finalize phase (only `VIDEO_IMPORTED` steps carry a video). -/
def runVideoIds (st : RunState) : List Nat :=
  st.steps.filterMap (fun s => s.video)

/-- The queryset `Video.objects.filter(feedimportstep__feed_import=self,
status=Video.PUBLISHED, published_datetime=now())` computed after the
bulk publish and handed to `post_feed_import_publish`. -/
def publishedQuery (st : RunState) (t : Nat) : List (Nat × VideoRec) :=
  st.videos.filter (fun p =>
    decide (p.1 ∈ runVideoIds st) && decide (p.2.status = VStatus.published)
      && decide (p.2.published_datetime = some t))

/-- The finalize phase of `FeedImport.run` ("Pt 2: Mark videos active
all at once." through the final `self.save()`).

If the feed does not moderate: `to_publish` is the run's videos still
`UNPUBLISHED`; `pre_feed_import_publish.send_robust` is sent (no
receivers are modelled — the claims stipulate no observer overrides, and
`send_robust` never raises); then `to_publish.update(status=PUBLISHED)` —
note this SQL update writes only `status`, it does not touch
`published_datetime`; then the `published` queryset (see
`publishedQuery`) is computed for `post_feed_import_publish`.

Unconditionally, the run's videos still `UNPUBLISHED` are updated to
`NEEDS_MODERATION`, `is_complete` is set and the row saved. -/
def finalize (feed : Feed) (t : Nat) (st : RunState) : RunState :=
  let ids := runVideoIds st
  let st :=
    if !feed.moderate_imported_videos then
      { st with videos := st.videos.map (fun (p : Nat × VideoRec) =>
          if p.1 ∈ ids ∧ p.2.status = VStatus.unpublished then
            (p.1, { p.2 with status := VStatus.published })
          else p) }
    else st
  let _published := publishedQuery st t
  let st :=
    { st with videos := st.videos.map (fun (p : Nat × VideoRec) =>
        if p.1 ∈ ids ∧ p.2.status = VStatus.unpublished then
          (p.1, { p.2 with status := VStatus.needsModeration })
        else p) }
  { st with is_complete := true }

/-- `FeedImport.run`.  `fetch_fails` is whether the first stage
(`feed.get_iterator()`, `iterator.load()`,
`feed.update_metadata(iterator)`) raises: if so the method records one
`IMPORT_ERRORED` step and RETURNS — the finalize phase is skipped and
`is_complete` is never set.  Otherwise the item loop runs and the
finalize phase executes.  (`update_metadata` mutates only the `Feed`
row, modelled separately by `update_metadata`; it cannot affect the item
loop.) -/
def run (feed : Feed) (hashf : String → String) (fetch_fails : Bool)
    (items : List FeedItem) (t : Nat) (st : RunState) : RunState :=
  if fetch_fails then
    record_step st StepType.importErrored none true
  else
    finalize feed t (processItems feed hashf t st items).1

/-! ## Concrete fixtures for witnesses and counterexamples -/

/-- A remote record whose only identifying facet is its guid `g`. -/
def sampleVid (g : String) : VidscraperVideo :=
  { url := "u", guid := g, link := "", flash_enclosure_url := "",
    embed_code := "", title := "t", description := "", files := none }

/-- An item over `sampleVid g` on which every external call succeeds. -/
def sampleItem (g : String) : FeedItem :=
  { video := sampleVid g, load_fails := false, valid_fails := false,
    save_fails := false, attach_fails := false }

/-- A feed that publishes without moderation and stops at the first
seen item. -/
def feedAuto : Feed :=
  { moderate_imported_videos := false, stop_if_seen := true,
    should_update_metadata := true, original_url := "orig", name := "",
    description := "", web_url := "web", external_etag := "",
    external_last_modified := none }

/-- A remote record with every fingerprint-contributing field empty and
no files at all. -/
def emptyRecord : VidscraperVideo :=
  { url := "", guid := "", link := "", flash_enclosure_url := "",
    embed_code := "", title := "", description := "", files := none }

/-! ## Identifier layer (claims C3, C7) -/

/-- A non-empty raw identifier of a record contributes its hash to
`get_identifier_hashes`. -/
theorem hash_mem_get_identifier_hashes (hashf : String → String)
    (v : VidscraperVideo) (s : String) (hs : s ≠ "")
    (hv : s ∈ rawIdentifiers v) :
    hashf s ∈ get_identifier_hashes hashf v := by
  unfold get_identifier_hashes
  exact List.mem_map_of_mem hashf (List.mem_filter.mpr ⟨hv, by simpa using hs⟩)

/-- A record one of whose hashes is stored for the feed is seen. -/
theorem is_seen_of_mem (hashf : String → String) (seen : List String)
    (v : VidscraperVideo) (h : String) (hmem : h ∈ get_identifier_hashes hashf v)
    (hstored : h ∈ seen) : is_seen hashf seen v = true := by
  have hne : (get_identifier_hashes hashf v).isEmpty = false := by
    cases hgi : get_identifier_hashes hashf v with
    | nil => rw [hgi] at hmem; cases hmem
    | cons a l => rfl
  simp [is_seen, hne, List.any_eq_true]
  exact ⟨h, hmem, hstored⟩

/-- Claim C3 (counterexample): a record with no non-empty
fingerprint-contributing field is not seen even directly after
`mark_seen` marked it, so `markSeen` followed by `isSeen` does not
return true for every record. -/
theorem C3_counterexample :
    is_seen id (mark_seen id [] emptyRecord) emptyRecord = false := by
  decide

/-- Claim C3 (amended): for every digest, feed history and records `v`,
`v2` that share a non-empty fingerprint-contributing value `s` (guid,
link, flash enclosure URL, embed code, or non-expiring file URL), after
`mark_seen` on `v` both `is_seen v` and `is_seen v2` return true.
Records yielding no fingerprints (as in the counterexample) are the
only exception to the original claim. -/
theorem C3_mark_seen_is_seen (hashf : String → String) (seen : List String)
    (v v2 : VidscraperVideo) (s : String) (hs : s ≠ "")
    (hv : s ∈ rawIdentifiers v) (hv2 : s ∈ rawIdentifiers v2) :
    is_seen hashf (mark_seen hashf seen v) v = true ∧
      is_seen hashf (mark_seen hashf seen v) v2 = true := by
  have hmem : hashf s ∈ get_identifier_hashes hashf v :=
    hash_mem_get_identifier_hashes hashf v s hs hv
  have hmem2 : hashf s ∈ get_identifier_hashes hashf v2 :=
    hash_mem_get_identifier_hashes hashf v2 s hs hv2
  have hstored : hashf s ∈ mark_seen hashf seen v := by
    unfold mark_seen
    exact List.mem_append_right seen hmem
  exact ⟨is_seen_of_mem hashf _ v _ hmem hstored,
         is_seen_of_mem hashf _ v2 _ hmem2 hstored⟩

/-- Claim C3 witness: two records sharing the guid `"g"`; after marking
the first, both are seen. -/
theorem C3_witness :
    is_seen id (mark_seen id [] (sampleVid "g")) (sampleVid "g") = true ∧
      is_seen id (mark_seen id [] (sampleVid "g"))
        { sampleVid "g" with link := "l" } = true :=
  C3_mark_seen_is_seen id [] (sampleVid "g") { sampleVid "g" with link := "l" }
    "g" (by decide) (by decide) (by decide)

/-- Claim C7: a record whose guid, link, flash enclosure URL and embed
code are all empty and which offers no non-expiring file variants yields
an empty fingerprint list, and `is_seen` returns false on it regardless
of the stored history, so it is always re-attempted. -/
theorem C7_empty_never_seen (hashf : String → String) (v : VidscraperVideo)
    (h1 : v.guid = "") (h2 : v.link = "") (h3 : v.flash_enclosure_url = "")
    (h4 : v.embed_code = "") (h5 : nonExpiringFiles v = []) :
    get_identifier_hashes hashf v = [] ∧
      ∀ seen : List String, is_seen hashf seen v = false := by
  have hraw : rawIdentifiers v = ["", "", "", ""] := by
    simp [rawIdentifiers, h1, h2, h3, h4, h5]
  have hh : get_identifier_hashes hashf v = [] := by
    simp [get_identifier_hashes, hraw]
  refine ⟨hh, fun seen => ?_⟩
  simp [is_seen, hh]

/-- Claim C7 witness: the all-empty record with an expiring file on a
non-trivial history. -/
theorem C7_witness :
    get_identifier_hashes id { emptyRecord with files := some [⟨"f", true⟩] }
        = [] ∧
      ∀ seen : List String,
        is_seen id seen { emptyRecord with files := some [⟨"f", true⟩] }
          = false :=
  C7_empty_never_seen id { emptyRecord with files := some [⟨"f", true⟩] }
    (by decide) (by decide) (by decide) (by decide) (by decide)

/-! ## Feed metadata update (claim C9) -/

/-- Claim C9: `Feed.update_metadata` never changes the persisted
`web_url` (the `iterator.webpage` value is assigned to `external_url`,
which is not a `Feed` field), nor `original_url` nor the import
behaviour flags; only name, description, etag, last-modified and the
metadata flag can change. -/
theorem C9_web_url_unchanged (feed : Feed) (it : FeedIterator) :
    (update_metadata feed it).web_url = feed.web_url ∧
      (update_metadata feed it).original_url = feed.original_url ∧
      (update_metadata feed it).moderate_imported_videos
          = feed.moderate_imported_videos ∧
      (update_metadata feed it).stop_if_seen = feed.stop_if_seen := by
  cases hlm : it.last_modified <;>
    by_cases h1 : it.etag ≠ "" ∧ it.etag ≠ feed.external_etag <;>
      by_cases h2 : feed.should_update_metadata = true <;>
        simp [update_metadata, hlm, h1, h2]

/-! ## Fetch-level failure (claim C1) -/

/-- Claim C1 (counterexample): a run whose fetch stage raises records
the import-level error step but does NOT reach the finalize phase —
`run` returns immediately after `record_step`, so `is_complete` stays
false, contradicting the claim that such a run still finalizes with
`is_complete = true`. -/
theorem C1_counterexample :
    (run feedAuto id true [sampleItem "g1"] 0 (mkInit [])).is_complete
      = false := by
  decide

/-- Claim C1 (amended): on a fetch-stage exception the run records
exactly one `IMPORT_ERRORED` step with a captured trace and returns at
once: the item loop and the finalize phase are skipped, no video is
created or transitioned, and `is_complete` remains false. -/
theorem C1_fetch_failure (feed : Feed) (hashf : String → String)
    (items : List FeedItem) (t : Nat) (seen : List String) :
    run feed hashf true items t (mkInit seen)
        = record_step (mkInit seen) StepType.importErrored none true ∧
      (run feed hashf true items t (mkInit seen)).steps
        = [⟨StepType.importErrored, none, true⟩] ∧
      (run feed hashf true items t (mkInit seen)).videos = [] ∧
      (run feed hashf true items t (mkInit seen)).is_complete = false := by
  refine ⟨rfl, ?_, ?_, ?_⟩ <;> simp [run, record_step, mkInit]

/-! ## Finalize-phase publication (claim C2) -/

/-- Claim C2 (code bug evaluation): a run over a feed with
`moderate_imported_videos = false` that imports one new video and has no
signal receivers completes, and the bulk publish transitions the video
to `PUBLISHED` — but `to_publish.update(status=Video.PUBLISHED)` writes
only `status`, so `published_datetime` remains `None`, and the
`published` queryset the source then builds with
`published_datetime=now()` is empty. -/
theorem C2_publish_datetime_bug :
    (run feedAuto id false [sampleItem "g1"] 7 (mkInit [])).is_complete
        = true ∧
      (run feedAuto id false [sampleItem "g1"] 7 (mkInit [])).videos.map
          (fun p => (p.2.status, p.2.published_datetime))
        = [(VStatus.published, none)] ∧
      publishedQuery (run feedAuto id false [sampleItem "g1"] 7 (mkInit [])) 7
        = [] := by
  refine ⟨?_, ?_, ?_⟩ <;> decide

/-! ## Per-item outcomes (claims C5, C6, C10) -/

/-- Claim C5: if the deferred attachment (`save_m2m`) raises after the
row was saved, the row is deleted again (the `Video` table is exactly
what it was before the item), a `VIDEO_ERRORED` step with a captured
trace is recorded by the per-item guard, and the loop continues.  The
freshness hypothesis `h5` states that the new row's primary key is not
already in the table, which the database guarantees. -/
theorem C5_attach_failure_no_row (feed : Feed) (hashf : String → String)
    (t : Nat) (st : RunState) (item : FeedItem)
    (h1 : item.load_fails = false)
    (h2 : is_seen hashf st.seen item.video = false)
    (h3 : item.save_fails = false)
    (h4 : item.attach_fails = true)
    (h5 : ∀ p ∈ st.videos, p.1 ≠ st.next_id) :
    (processItem feed hashf t st item).1.videos = st.videos ∧
      (processItem feed hashf t st item).1.steps
        = st.steps
            ++ (if item.valid_fails then [⟨StepType.videoInvalid, none, true⟩]
                else [])
            ++ [⟨StepType.videoErrored, none, true⟩] ∧
      (processItem feed hashf t st item).2 = false := by
  have hself : st.videos.filter
      (fun p => decide (p.1 ≠ st.next_id)) = st.videos := by
    rw [List.filter_eq_self]
    intro p hp
    simpa using h5 p hp
  cases hv : item.valid_fails <;>
    simp [processItem, record_step, h1, h2, h3, h4, hv,
          List.filter_append, hself] <;>
    exact fun a b hab => h5 (a, b) hab

/-- Claim C5 witness: a fresh run state, one item whose attachment
fails; no row survives and a `VIDEO_ERRORED` step is recorded. -/
theorem C5_witness :
    (processItem feedAuto id 0 (mkInit [])
        { sampleItem "g1" with attach_fails := true }).1.videos = [] ∧
      (processItem feedAuto id 0 (mkInit [])
          { sampleItem "g1" with attach_fails := true }).1.steps
        = [] ++ (if ({ sampleItem "g1" with attach_fails := true} :
                  FeedItem).valid_fails then
                [⟨StepType.videoInvalid, none, true⟩] else [])
            ++ [⟨StepType.videoErrored, none, true⟩] ∧
      (processItem feedAuto id 0 (mkInit [])
          { sampleItem "g1" with attach_fails := true }).2 = false :=
  C5_attach_failure_no_row feedAuto id 0 (mkInit [])
    { sampleItem "g1" with attach_fails := true }
    (by decide) (by decide) (by decide) (by decide)
    (by intro p hp; cases hp)

/-- Claim C6: a `ValidationError` from `clean_fields()` /
`validate_unique()` records a `VIDEO_INVALID` step with a captured
trace, and — when the subsequent save and attachment succeed — the row
is persisted anyway: validation failure does not prevent persistence. -/
theorem C6_invalid_still_saved (feed : Feed) (hashf : String → String)
    (t : Nat) (st : RunState) (item : FeedItem)
    (h1 : item.load_fails = false)
    (h2 : is_seen hashf st.seen item.video = false)
    (hv : item.valid_fails = true)
    (h3 : item.save_fails = false)
    (h4 : item.attach_fails = false) :
    (⟨StepType.videoInvalid, none, true⟩ : Step)
        ∈ (processItem feed hashf t st item).1.steps ∧
      (processItem feed hashf t st item).1.videos
        = st.videos
            ++ [(st.next_id,
                 from_vidscraper_video item.video VStatus.unpublished t)] := by
  simp [processItem, record_step, h1, h2, hv, h3, h4]

/-- Claim C6 witness: one validation-failing item on a fresh state; the
invalid step is recorded and the row is in the table. -/
theorem C6_witness :
    (⟨StepType.videoInvalid, none, true⟩ : Step)
        ∈ (processItem feedAuto id 0 (mkInit [])
            { sampleItem "g1" with valid_fails := true }).1.steps ∧
      (processItem feedAuto id 0 (mkInit [])
          { sampleItem "g1" with valid_fails := true }).1.videos
        = [] ++ [(0, from_vidscraper_video
            ({ sampleItem "g1" with valid_fails := true} : FeedItem).video
            VStatus.unpublished 0)] :=
  C6_invalid_still_saved feedAuto id 0 (mkInit [])
    { sampleItem "g1" with valid_fails := true }
    (by decide) (by decide) (by decide) (by decide) (by decide)

/-- Claim C10: an item that fails validation but whose save, attachment
and mark-seen succeed produces BOTH a `VIDEO_INVALID` and a
`VIDEO_IMPORTED` step — two steps for one item — and the run's
`import_count` is incremented: validation-failed items are counted
as imported. -/
theorem C10_invalid_and_imported (feed : Feed) (hashf : String → String)
    (t : Nat) (st : RunState) (item : FeedItem)
    (h1 : item.load_fails = false)
    (h2 : is_seen hashf st.seen item.video = false)
    (hv : item.valid_fails = true)
    (h3 : item.save_fails = false)
    (h4 : item.attach_fails = false) :
    (processItem feed hashf t st item).1.steps
        = st.steps ++ [⟨StepType.videoInvalid, none, true⟩,
                       ⟨StepType.videoImported, some st.next_id, false⟩] ∧
      (processItem feed hashf t st item).1.import_count
        = st.import_count + 1 := by
  simp [processItem, record_step, h1, h2, hv, h3, h4]

/-- Claim C10 witness: the validation-failing item of a fresh state
yields the two steps and bumps `import_count` to one. -/
theorem C10_witness :
    (processItem feedAuto id 0 (mkInit [])
        { sampleItem "g1" with valid_fails := true }).1.steps
        = [] ++ [⟨StepType.videoInvalid, none, true⟩,
                 ⟨StepType.videoImported, some 0, false⟩] ∧
      (processItem feedAuto id 0 (mkInit [])
          { sampleItem "g1" with valid_fails := true }).1.import_count
        = 0 + 1 :=
  C10_invalid_and_imported feedAuto id 0 (mkInit [])
    { sampleItem "g1" with valid_fails := true }
    (by decide) (by decide) (by decide) (by decide) (by decide)

/-! ## Stop-at-first-seen (claim C8) -/

/-- Claim C8: over a feed with `stop_if_seen = true`, an iterator
yielding `[new1, seen1, new2]` where `new1` imports cleanly and `seen1`
is already seen (with respect to the history after `new1` was marked)
makes the loop record an imported step for `new1` and a seen step for
`seen1`, then break: `new2` is never pulled from the iterator — not
loaded, built or attempted — and the only video row is `new1`'s. -/
theorem C8_stop_at_first_seen (feed : Feed) (hashf : String → String)
    (t : Nat) (seen0 : List String) (new1 seen1 new2 : FeedItem)
    (hstop : feed.stop_if_seen = true)
    (ha : new1.load_fails = false) (hb : new1.valid_fails = false)
    (hc : new1.save_fails = false) (hd : new1.attach_fails = false)
    (he : is_seen hashf seen0 new1.video = false)
    (hf : seen1.load_fails = false)
    (hg : is_seen hashf (mark_seen hashf seen0 new1.video) seen1.video
            = true) :
    (processItems feed hashf t (mkInit seen0) [new1, seen1, new2]).2
        = [new2] ∧
      (processItems feed hashf t (mkInit seen0) [new1, seen1, new2]).1.steps
        = [⟨StepType.videoImported, some 0, false⟩,
           ⟨StepType.videoSeen, none, false⟩] ∧
      (processItems feed hashf t (mkInit seen0) [new1, seen1, new2]).1.videos
        = [(0, from_vidscraper_video new1.video VStatus.unpublished t)] := by
  simp [processItems, processItem, record_step, mkInit,
        ha, hb, hc, hd, he, hf, hg, hstop]

/-- Claim C8 witness: history `["g2"]`, items with guids `g1`, `g2`,
`g3`; the run imports `g1`, records seen on `g2`, and leaves `g3`
unconsumed. -/
theorem C8_witness :
    (processItems feedAuto id 0 (mkInit ["g2"])
        [sampleItem "g1", sampleItem "g2", sampleItem "g3"]).2
        = [sampleItem "g3"] ∧
      (processItems feedAuto id 0 (mkInit ["g2"])
          [sampleItem "g1", sampleItem "g2", sampleItem "g3"]).1.steps
        = [⟨StepType.videoImported, some 0, false⟩,
           ⟨StepType.videoSeen, none, false⟩] ∧
      (processItems feedAuto id 0 (mkInit ["g2"])
          [sampleItem "g1", sampleItem "g2", sampleItem "g3"]).1.videos
        = [(0, from_vidscraper_video (sampleItem "g1").video
              VStatus.unpublished 0)] :=
  C8_stop_at_first_seen feedAuto id 0 ["g2"]
    (sampleItem "g1") (sampleItem "g2") (sampleItem "g3")
    (by decide) (by decide) (by decide) (by decide) (by decide)
    (by decide) (by decide) (by decide)

/-! ## Counter accounting (claim C4) -/

/-- The number of recorded `VIDEO_IMPORTED` steps. -/
def countImported (steps : List Step) : Nat :=
  (steps.filter (fun s => decide (s.step_type = StepType.videoImported))).length

/-- The number of recorded `IMPORT_ERRORED` and `VIDEO_ERRORED` steps. -/
def countErrored (steps : List Step) : Nat :=
  (steps.filter (fun s =>
    decide (s.step_type = StepType.videoErrored
      ∨ s.step_type = StepType.importErrored))).length

/-- The denormalized counters agree with the step log. -/
def countersOk (st : RunState) : Prop :=
  st.import_count = countImported st.steps ∧
    st.error_count = countErrored st.steps

theorem countersOk_record_step (st : RunState) (ty : StepType)
    (v : Option Nat) (tb : Bool) (h : countersOk st) :
    countersOk (record_step st ty v tb) := by
  obtain ⟨hI, hE⟩ := h
  cases ty <;>
    simp [countersOk, record_step, countImported, countErrored,
          List.filter_append, hI, hE]

theorem countersOk_processItem (feed : Feed) (hashf : String → String)
    (t : Nat) (st : RunState) (item : FeedItem) (h : countersOk st) :
    countersOk (processItem feed hashf t st item).1 := by
  obtain ⟨hI, hE⟩ := h
  rcases item with ⟨v, lf, vf, sf, af⟩
  cases lf <;> cases vf <;> cases sf <;> cases af <;>
    cases hseen : is_seen hashf st.seen v <;>
      simp [processItem, record_step, countersOk, countImported,
            countErrored, List.filter_append, hseen, hI, hE]

theorem countersOk_processItems (feed : Feed) (hashf : String → String)
    (t : Nat) : ∀ (items : List FeedItem) (st : RunState),
    countersOk st → countersOk (processItems feed hashf t st items).1
  | [], _, h => h
  | item :: rest, st, h => by
    have h1 := countersOk_processItem feed hashf t st item h
    unfold processItems
    dsimp only
    split
    · exact h1
    · exact countersOk_processItems feed hashf t rest _ h1

/-- The finalize phase records no step and touches no counter. -/
theorem finalize_counters (feed : Feed) (t : Nat) (st : RunState) :
    (finalize feed t st).steps = st.steps ∧
      (finalize feed t st).import_count = st.import_count ∧
      (finalize feed t st).error_count = st.error_count := by
  unfold finalize
  split <;> simp

theorem countersOk_finalize (feed : Feed) (t : Nat) (st : RunState)
    (h : countersOk st) : countersOk (finalize feed t st) := by
  obtain ⟨h1, h2, h3⟩ := finalize_counters feed t st
  exact ⟨h2.trans (h.1.trans (by rw [h1])), h3.trans (h.2.trans (by rw [h1]))⟩

theorem counters_le_record_step (st : RunState) (ty : StepType)
    (v : Option Nat) (tb : Bool) :
    st.import_count ≤ (record_step st ty v tb).import_count ∧
      st.error_count ≤ (record_step st ty v tb).error_count := by
  cases ty <;> simp [record_step]

theorem counters_le_processItem (feed : Feed) (hashf : String → String)
    (t : Nat) (st : RunState) (item : FeedItem) :
    st.import_count ≤ (processItem feed hashf t st item).1.import_count ∧
      st.error_count ≤ (processItem feed hashf t st item).1.error_count := by
  rcases item with ⟨v, lf, vf, sf, af⟩
  cases lf <;> cases vf <;> cases sf <;> cases af <;>
    cases hseen : is_seen hashf st.seen v <;>
      simp [processItem, record_step, hseen]

theorem counters_le_processItems (feed : Feed) (hashf : String → String)
    (t : Nat) : ∀ (items : List FeedItem) (st : RunState),
    st.import_count ≤ (processItems feed hashf t st items).1.import_count ∧
      st.error_count ≤ (processItems feed hashf t st items).1.error_count
  | [], st => ⟨Nat.le_refl _, Nat.le_refl _⟩
  | item :: rest, st => by
    have h1 := counters_le_processItem feed hashf t st item
    unfold processItems
    dsimp only
    split
    · exact h1
    · have h2 := counters_le_processItems feed hashf t rest
        (processItem feed hashf t st item).1
      exact ⟨h1.1.trans h2.1, h1.2.trans h2.2⟩

/-- Claim C4: (i) at the end of every run started on a fresh
`FeedImport`, `import_count` equals the number of recorded
`VIDEO_IMPORTED` steps and `error_count` equals the number of
`IMPORT_ERRORED` plus `VIDEO_ERRORED` steps; (ii) each `record_step`
increments the corresponding counter by exactly one (and the other by
zero); (iii) the counters never decrease across the item loop. -/
theorem C4_counters_match_steps :
    (∀ (feed : Feed) (hashf : String → String) (ff : Bool)
        (items : List FeedItem) (t : Nat) (seen : List String),
      (run feed hashf ff items t (mkInit seen)).import_count
          = countImported (run feed hashf ff items t (mkInit seen)).steps ∧
        (run feed hashf ff items t (mkInit seen)).error_count
          = countErrored (run feed hashf ff items t (mkInit seen)).steps) ∧
    (∀ (st : RunState) (ty : StepType) (v : Option Nat) (tb : Bool),
      (record_step st ty v tb).import_count
          = st.import_count + (if ty = StepType.videoImported then 1 else 0) ∧
        (record_step st ty v tb).error_count
          = st.error_count
            + (if ty = StepType.videoErrored ∨ ty = StepType.importErrored
               then 1 else 0)) ∧
    (∀ (feed : Feed) (hashf : String → String) (t : Nat)
        (items : List FeedItem) (st : RunState),
      st.import_count ≤ (processItems feed hashf t st items).1.import_count ∧
        st.error_count ≤ (processItems feed hashf t st items).1.error_count) := by
  refine ⟨?_, ?_, ?_⟩
  · intro feed hashf ff items t seen
    have h0 : countersOk (mkInit seen) := ⟨rfl, rfl⟩
    unfold run
    split
    · exact countersOk_record_step _ _ _ _ h0
    · exact countersOk_finalize _ _ _
        (countersOk_processItems feed hashf t items _ h0)
  · intro st ty v tb
    cases ty <;> simp [record_step]
  · intro feed hashf t items st
    exact counters_le_processItems feed hashf t items st
